import Mathlib

/-!
Verification development for the SLAM-the-Dead state-estimation core.

The Dart sources under `lib/core/` are shallowly embedded here:

* `dart_feature_detector.dart` (corner detection, patch matching, pose-delta
  estimation) and `slam_engine.dart` / `feature_tracker.dart` are embedded over
  `ℚ`: all the arithmetic they perform is field arithmetic, comparisons and
  integer indexing, so the embedding is executable and decidable.  The only
  square roots in those files occur inside comparisons
  (`sqrt (dx*dx+dy*dy) < c` and `rawVelocity.length > 0.5`); since the radicand
  is a sum of squares and the bound is nonnegative, these are embedded as the
  equivalent squared comparisons `dx*dx+dy*dy < c*c` and `length2 > 0.25`.
* `alignment.dart` (Madgwick filter, dead-reckoning integrator, Umeyama
  alignment, trajectory metrics) is embedded over `ℝ`, with `Real.sqrt`,
  `Real.sin`, `Real.cos` standing for `dart:math`'s `sqrt`, `sin`, `cos`.

Dart dynamic-map records (`{'pt': [x,y], ...}`) are embedded as structures in
which the fields the code reads are always present; `double.infinity`
sentinels in the matcher are embedded as `Option ℚ` with `none` standing for
infinity; a Dart index error (`RangeError`) is embedded as `Option.none` on
the result of the whole function; a Dart `assert` failure is `Except.error`.
-/

/-! ## Rational 2D/3D vectors (vector_math subset used by the ℚ-embedded code) -/

/-- 3-vector over `ℚ` (embeds `vector_math_64.Vector3` where no square root is
taken on it). -/
structure V3Q where
  x : ℚ
  y : ℚ
  z : ℚ
deriving DecidableEq

def V3Q.zero : V3Q := ⟨0, 0, 0⟩

def V3Q.add (a b : V3Q) : V3Q := ⟨a.x + b.x, a.y + b.y, a.z + b.z⟩

def V3Q.sub (a b : V3Q) : V3Q := ⟨a.x - b.x, a.y - b.y, a.z - b.z⟩

/-- Dart's `v * c` (componentwise scale). -/
def V3Q.scale (a : V3Q) (c : ℚ) : V3Q := ⟨a.x * c, a.y * c, a.z * c⟩

/-- `v.length2` – squared Euclidean norm. -/
def V3Q.length2 (a : V3Q) : ℚ := a.x * a.x + a.y * a.y + a.z * a.z

/-- Quaternion record over `ℚ` (storage order x,y,z,w as in `vector_math`).
The ℚ-embedded SLAM engine only carries quaternions around (identity /
copies), so no quaternion arithmetic is needed on this type. -/
structure QuatQ where
  x : ℚ
  y : ℚ
  z : ℚ
  w : ℚ
deriving DecidableEq

def QuatQ.identity : QuatQ := ⟨0, 0, 0, 1⟩

/-! ## Data model of the detector/matcher/estimator (`dart_feature_detector.dart`) -/

/-- A detected feature `{'pt': [x, y], 'response': r, 'score': s}`. -/
structure Feature where
  ptx : ℚ
  pty : ℚ
  response : ℚ
  score : ℚ
deriving DecidableEq

instance : Inhabited Feature := ⟨⟨0, 0, 0, 0⟩⟩

/-- A match record `{'prevIndex': i, 'currIndex': j, 'score': s}`. -/
structure Match where
  prevIndex : ℕ
  currIndex : ℕ
  score : ℚ
deriving DecidableEq

/-- Result map of `DartFeatureDetector.estimatePose`.  The `< 8` early returns
build a map carrying only `rotation` and `translation`; the quality fields are
then absent, which a Dart caller observes as `null`.  Absence is embedded as
`none`. -/
structure PoseEstimate where
  rotation : V3Q
  translation : V3Q
  inlierRatio : Option ℚ
  inlierCount : Option ℕ
  matchCount : Option ℕ
deriving DecidableEq

/-- Dart `num.clamp(lo, hi)`. -/
def clampQ (v lo hi : ℚ) : ℚ := if v < lo then lo else if v > hi then hi else v

/-- Dart `.toInt()` on a double: truncation toward zero. -/
def dartToInt (q : ℚ) : ℤ := if 0 ≤ q then ⌊q⌋ else ⌈q⌉

/-- `DartFeatureDetector.estimatePose` (robust median-flow pose delta).
Sorting a list of rationals by `≤` determines the sorted list uniquely, so
`List.insertionSort` stands for Dart's in-place `sort()`. -/
def DartFeatureDetector.estimatePose (matchList : List Match) (prevFeatures currFeatures : List Feature)
    (intrinsics : List ℚ) : PoseEstimate :=
  if matchList.length < 8 then
    { rotation := V3Q.zero, translation := V3Q.zero,
      inlierRatio := none, inlierCount := none, matchCount := none }
  else
    let fx := (intrinsics.get? 0).getD 800
    let fy := (intrinsics.get? 1).getD 800
    let cx := (intrinsics.get? 2).getD 320
    let cy := (intrinsics.get? 3).getD 240
    -- collect normalized image coordinates, skipping out-of-range indices
    let points : List ((ℚ × ℚ) × (ℚ × ℚ)) := matchList.filterMap fun m =>
      if m.prevIndex ≥ prevFeatures.length ∨ m.currIndex ≥ currFeatures.length then none
      else
        let prevPt := (prevFeatures.get? m.prevIndex).getD default
        let currPt := (currFeatures.get? m.currIndex).getD default
        some (((Feature.ptx prevPt - cx) / fx, (Feature.pty prevPt - cy) / fy),
              ((Feature.ptx currPt - cx) / fx, (Feature.pty currPt - cy) / fy))
    if points.length < 8 then
      { rotation := V3Q.zero, translation := V3Q.zero,
        inlierRatio := none, inlierCount := none, matchCount := none }
    else
      let flowsX := points.map fun p => p.2.1 - p.1.1
      let flowsY := points.map fun p => p.2.2 - p.1.2
      let sortedX := flowsX.insertionSort (· ≤ ·)
      let sortedY := flowsY.insertionSort (· ≤ ·)
      let medianFlowX := (sortedX.get? (sortedX.length / 2)).getD 0
      let medianFlowY := (sortedY.get? (sortedY.length / 2)).getD 0
      let madX := |(sortedX.foldl (fun acc v => acc + |v - medianFlowX|) 0) / sortedX.length|
      let madY := |(sortedY.foldl (fun acc v => acc + |v - medianFlowY|) 0) / sortedY.length|
      let thresholdX := clampQ (madX * 3) 0.001 0.05
      let thresholdY := clampQ (madY * 3) 0.001 0.05
      -- the inlier loop walks the two independently sorted flow lists in step
      let inliers := (sortedX.zip sortedY).countP fun p =>
        decide (|p.1 - medianFlowX| < thresholdX ∧ |p.2 - medianFlowY| < thresholdY)
      let inlierRatio : ℚ := if sortedX.length ≠ 0 then (inliers : ℚ) / sortedX.length else 0
      { rotation := V3Q.zero,
        translation := ⟨-medianFlowX * 0.05, -medianFlowY * 0.05, 0⟩,
        inlierRatio := some inlierRatio,
        inlierCount := some inliers,
        matchCount := some sortedX.length }

/-- Modelled from the spec: the per-match inlier count claimed in the spec –
"Classify a match as inlier if both axis residuals are within threshold" with
each match contributing its own (x, y) flow pair.  Compare with the inlier
loop inside `estimatePose`, which instead walks the two independently sorted
flow lists in step. -/
def specInlierCount (flows : List (ℚ × ℚ)) : ℕ :=
  let sortedX := (flows.map Prod.fst).insertionSort (· ≤ ·)
  let sortedY := (flows.map Prod.snd).insertionSort (· ≤ ·)
  let medianFlowX := (sortedX.get? (sortedX.length / 2)).getD 0
  let medianFlowY := (sortedY.get? (sortedY.length / 2)).getD 0
  let madX := |(sortedX.foldl (fun acc v => acc + |v - medianFlowX|) 0) / sortedX.length|
  let madY := |(sortedY.foldl (fun acc v => acc + |v - medianFlowY|) 0) / sortedY.length|
  let thresholdX := clampQ (madX * 3) 0.001 0.05
  let thresholdY := clampQ (madY * 3) 0.001 0.05
  flows.countP fun p =>
    decide (|p.1 - medianFlowX| < thresholdX ∧ |p.2 - medianFlowY| < thresholdY)

/-! ## Feature matcher (`DartFeatureDetector.matchFeatures`) -/

/-- The closed integer interval `[lo, hi]` as a list (Dart `for (v = lo; v <= hi; v++)`). -/
def intRange (lo hi : ℤ) : List ℤ := (List.range (hi + 1 - lo).toNat).map fun k => lo + k

/-- `DartFeatureDetector._extractPatch`: collect the in-bounds pixels of the
`(2*(pSize/2)+1)`-square patch centered on `(cx, cy)`.  The `null`-for-empty
convention of the Dart code is folded into the empty list. -/
def DartFeatureDetector.extractPatch (image : List ℤ) (width : ℕ) (cx cy : ℤ)
    (pSize : ℕ) : List ℤ :=
  let half : ℤ := (pSize : ℤ) / 2
  (intRange (-half) half).foldl (fun patch dy =>
    (intRange (-half) half).foldl (fun patch2 dx =>
      let ny := cy + dy
      let nx := cx + dx
      if 0 ≤ nx ∧ nx < (width : ℤ) ∧ 0 ≤ ny ∧ ny < ((image.length / width : ℕ) : ℤ) then
        patch2 ++ [(image.get? (ny * width + nx).toNat).getD 0]
      else patch2) patch) []

/-- `DartFeatureDetector._computeNCC`: mean-subtracted sum of squared
differences; `none` stands for the `double.infinity` returned on a length
mismatch.  Callers only pass nonempty patches, so the `reduce` of the source
is a plain sum. -/
def DartFeatureDetector.computeNCC (patch1 patch2 : List ℤ) : Option ℚ :=
  if patch1.length ≠ patch2.length then none
  else
    let mean1 : ℚ := ((patch1.foldl (· + ·) 0 : ℤ) : ℚ) / patch1.length
    let mean2 : ℚ := ((patch2.foldl (· + ·) 0 : ℤ) : ℚ) / patch2.length
    some ((patch1.zip patch2).foldl (fun ssd p =>
      let diff := ((p.1 : ℚ) - mean1) - ((p.2 : ℚ) - mean2)
      ssd + diff * diff) 0)

/-- Score comparison `a < b` where `none` stands for `double.infinity`. -/
def oLt : Option ℚ → Option ℚ → Bool
  | none, _ => false
  | some _, none => true
  | some a, some b => decide (a < b)

/-- Running state of the candidate loop: best score, its index (`none` is the
sentinel `bestJ = -1`), and second-best score. -/
structure BestTwo where
  bestScore : Option ℚ
  bestJ : Option ℕ
  secondBestScore : Option ℚ
deriving DecidableEq

/-- The inner candidate loop of `matchFeatures`: scan every `curr` feature,
skipping those outside the search radius, out of patch bounds, or with an
empty patch, and track the best and second-best mean-subtracted SSD scores. -/
def DartFeatureDetector.scanCandidates (prevPatch : List ℤ) (current : List Feature)
    (currImage : List ℤ) (width height : ℕ) (px py : ℤ) : BestTwo :=
  (List.range current.length).foldl (fun st j =>
    let c := (current.get? j).getD default
    let cx := dartToInt (Feature.ptx c)
    let cy := dartToInt (Feature.pty c)
    if |cx - px| > 60 ∨ |cy - py| > 60 then st
    else if cx < 15 ∨ cx ≥ (width : ℤ) - 15 ∨ cy < 15 ∨ cy ≥ (height : ℤ) - 15 then st
    else
      let currPatch := DartFeatureDetector.extractPatch currImage width cx cy 15
      if currPatch = [] then st
      else
        let ncc := DartFeatureDetector.computeNCC prevPatch currPatch
        if oLt ncc (BestTwo.bestScore st) then ⟨ncc, some j, BestTwo.bestScore st⟩
        else if oLt ncc (BestTwo.secondBestScore st) then
          ⟨BestTwo.bestScore st, BestTwo.bestJ st, ncc⟩
        else st) ⟨none, none, none⟩

/-- `best / (secondBest + 0.001)` in IEEE semantics: a finite score divided by
infinity is `0`.  Only evaluated when the best score is finite. -/
def ratioOf (bestScore secondBestScore : Option ℚ) : ℚ :=
  match bestScore, secondBestScore with
  | some b, some s => b / (s + 0.001)
  | some _, none => 0
  | none, _ => 0

/-- One iteration of the outer loop of `matchFeatures` for prev-feature index
`i`: bounds check, patch extraction, candidate scan, and the
threshold-plus-Lowe-ratio acceptance test. -/
def DartFeatureDetector.considerFeature (prev current : List Feature)
    (prevImage currImage : List ℤ) (width height : ℕ) (i : ℕ) : Option Match :=
  let f := (prev.get? i).getD default
  let px := dartToInt (Feature.ptx f)
  let py := dartToInt (Feature.pty f)
  if px < 15 ∨ px ≥ (width : ℤ) - 15 ∨ py < 15 ∨ py ≥ (height : ℤ) - 15 then none
  else
    let prevPatch := DartFeatureDetector.extractPatch prevImage width px py 15
    if prevPatch = [] then none
    else
      let st := DartFeatureDetector.scanCandidates prevPatch current currImage width height px py
      match BestTwo.bestJ st, BestTwo.bestScore st with
      | some j, some b =>
        if b < 10000 then
          if ratioOf (some b) (BestTwo.secondBestScore st) < 0.8 then some ⟨i, j, b⟩
          else none
        else none
      | _, _ => none

/-- `DartFeatureDetector.matchFeatures`: emit at most one match per considered
prev feature (the first `min(prev.length, 50)` of them). -/
def DartFeatureDetector.matchFeatures (prev current : List Feature)
    (prevImage currImage : List ℤ) (width height : ℕ) : List Match :=
  if prev = [] ∨ current = [] ∨ prevImage = [] ∨ currImage = [] then []
  else
    (List.range (min prev.length 50)).foldl (fun acc i =>
      match DartFeatureDetector.considerFeature prev current prevImage currImage width height i with
      | some m => acc ++ [m]
      | none => acc) []

/-! ## Corner detector (`DartFeatureDetector.detectCorners`) -/

/-- Read entry `(y, x)` of a row-major list-of-rows matrix (all reads by the
Harris stage are in bounds by construction of the gradient matrices). -/
def get2 (m : List (List ℚ)) (y x : ℕ) : ℚ := (((m.get? y).getD []).get? x).getD 0

/-- Write entry `(y, x)` of a row-major list-of-rows matrix. -/
def set2 (m : List (List ℚ)) (y x : ℕ) (v : ℚ) : List (List ℚ) :=
  m.set y (((m.get? y).getD []).set x v)

/-- The Sobel-like gradient pass of `detectCorners`.  Every pixel read is a
checked `List.get?`; an out-of-range read (Dart `RangeError`) aborts the whole
computation with `none`.  The `idx >= imageBytes.length` guard of the source
only checks the center index, not the four neighbor reads. -/
def DartFeatureDetector.computeGradients (imageBytes : List ℤ) (width height : ℕ) :
    Option (List (List ℚ) × List (List ℚ)) :=
  let zeroRow : List ℚ := List.replicate width 0
  let init : List (List ℚ) := List.replicate height zeroRow
  (List.range' 1 (height - 2)).foldl (fun acc y =>
    (List.range' 1 (width - 2)).foldl (fun acc2 x =>
      Option.bind acc2 fun g =>
        let idx := y * width + x
        if idx ≥ imageBytes.length then some g
        else
          match imageBytes.get? (y * width + (x - 1)), imageBytes.get? (y * width + (x + 1)),
                imageBytes.get? ((y - 1) * width + x), imageBytes.get? ((y + 1) * width + x) with
          | some left, some right, some above, some below =>
            some (set2 g.1 y x (((right - left : ℤ) : ℚ)), set2 g.2 y x (((below - above : ℤ) : ℚ)))
          | _, _, _, _ => none) acc) (some (init, init))

/-- The Harris-response pass of `detectCorners`: 3×3 second-moment sums and
`det - 0.04*trace²`, keeping pixels with response above the threshold `20`.
Features record `(x, y)` with `response` duplicated into `score`. -/
def DartFeatureDetector.harrisCorners (gx gy : List (List ℚ)) (width height : ℕ) :
    List Feature :=
  (List.range' 2 (height - 4)).foldl (fun acc y =>
    (List.range' 2 (width - 4)).foldl (fun acc2 x =>
      let nb : List ℕ := [0, 1, 2]
      let sums := nb.foldl (fun s dy =>
        nb.foldl (fun s2 dx =>
          let gradX := get2 gx (y - 1 + dy) (x - 1 + dx)
          let gradY := get2 gy (y - 1 + dy) (x - 1 + dx)
          (s2.1 + gradX * gradX, s2.2.1 + gradY * gradY, s2.2.2 + gradX * gradY)) s)
        ((0 : ℚ), (0 : ℚ), (0 : ℚ))
      let trace := sums.1 + sums.2.1
      let det := sums.1 * sums.2.1 - sums.2.2 * sums.2.2
      let response := det - 0.04 * trace * trace
      if response > 20 then acc2 ++ [⟨(x : ℚ), (y : ℚ), response, response⟩] else acc2) acc) []

/-- The non-maximum-suppression pass of `detectCorners`: greedily keep corners
(at most 150) farther than `minDistance = 15` from every kept corner.  The
source compares `sqrt(dx*dx + dy*dy) < 15`; this is embedded as the equivalent
squared comparison `dx*dx + dy*dy < 225`. -/
def DartFeatureDetector.nmsFilter (corners : List Feature) : List Feature :=
  corners.foldl (fun filtered c =>
    if filtered.length ≥ 150 then filtered
    else
      let suppressed := filtered.any fun k =>
        decide ((Feature.ptx c - Feature.ptx k) * (Feature.ptx c - Feature.ptx k)
          + (Feature.pty c - Feature.pty k) * (Feature.pty c - Feature.pty k) < 225)
      if suppressed then filtered else filtered ++ [c]) []

/-- `DartFeatureDetector.detectCorners`.  Dart's unstable sort on distinct
responses is deterministic; ties are resolved here by the stable
`insertionSort` on the descending-response relation.  `none` is a
`RangeError` escaping the function. -/
def DartFeatureDetector.detectCorners (imageBytes : List ℤ) (width height : ℕ) :
    Option (List Feature) :=
  if imageBytes = [] ∨ width < 10 ∨ height < 10 then some []
  else
    (DartFeatureDetector.computeGradients imageBytes width height).map fun g =>
      DartFeatureDetector.nmsFilter
        ((DartFeatureDetector.harrisCorners g.1 g.2 width height).insertionSort
          fun a b => Feature.response b ≤ Feature.response a)

/-! ## Feature tracker (`feature_tracker.dart`) -/

/-- A feature track `{points, id}` (carried but never populated by the engine). -/
structure FeatureTrack where
  points : List (ℚ × ℚ)
  id : ℤ
deriving DecidableEq

/-- Mutable fields of `FeatureTracker`. -/
structure FeatureTracker where
  prevImage : List ℤ
  currImage : List ℤ
  prevFeatures : List Feature
  currFeatures : List Feature
  frameCount : ℕ
  width : ℕ
  height : ℕ
deriving DecidableEq

/-- A fresh `FeatureTracker` (constructor defaults). -/
def FeatureTracker.init : FeatureTracker := ⟨[], [], [], [], 0, 320, 240⟩

/-- `FeatureTracker.detectFeatures`: validate, stash the frame, run the corner
detector, and rotate the prev/curr feature and image buffers.  A `RangeError`
thrown by `detectCorners` is caught after the width/height/current-image
mutations have happened, and `[]` is returned. -/
def FeatureTracker.detectFeatures (t : FeatureTracker) (imageBytes : List ℤ)
    (w h : ℕ) : FeatureTracker × List Feature :=
  if imageBytes = [] ∨ w < 10 ∨ h < 10 then (t, [])
  else
    let t1 := { t with width := w, height := h, currImage := imageBytes }
    match DartFeatureDetector.detectCorners imageBytes w h with
    | none => (t1, [])
    | some features =>
      let t2 :=
        if FeatureTracker.frameCount t1 = 0 then
          { t1 with prevFeatures := features, prevImage := imageBytes }
        else
          { t1 with prevFeatures := FeatureTracker.currFeatures t1,
                    prevImage := FeatureTracker.currImage t1 }
      ({ t2 with currFeatures := features,
                 frameCount := FeatureTracker.frameCount t2 + 1 }, features)

/-- `FeatureTracker.matchFeatures`: validate, then delegate to the detector's
matcher on the stored image pair. -/
def FeatureTracker.matchFeatures (t : FeatureTracker) (prev current : List Feature) :
    List Match :=
  if prev = [] ∨ current = [] ∨ FeatureTracker.prevImage t = [] ∨
      FeatureTracker.currImage t = [] then []
  else
    DartFeatureDetector.matchFeatures prev current (FeatureTracker.prevImage t)
      (FeatureTracker.currImage t) (FeatureTracker.width t) (FeatureTracker.height t)

/-- `FeatureTracker.estimatePosePnP`.  The source ignores `imagePoints` and
`worldPoints` entirely and invokes `DartFeatureDetector.estimatePose` with an
empty match list on the tracker's stored feature sets. -/
def FeatureTracker.estimatePosePnP (t : FeatureTracker)
    (imagePoints worldPoints : List (List ℚ)) (intrinsics : List ℚ) : PoseEstimate :=
  DartFeatureDetector.estimatePose [] (FeatureTracker.prevFeatures t)
    (FeatureTracker.currFeatures t) intrinsics

/-! ## SLAM engine (`slam_engine.dart`) -/

/-- `Pose` over ℚ as carried by the SLAM (visual-odometry) track. -/
structure PoseQ where
  timestamp : ℚ
  position : V3Q
  orientation : QuatQ
deriving DecidableEq

/-- `Keyframe {pose, features}`. -/
structure KeyframeQ where
  pose : PoseQ
  features : List Feature
deriving DecidableEq

/-- `SlamState {poseHistory, keyframes, tracks}`. -/
structure SlamStateQ where
  poseHistory : List PoseQ
  keyframes : List KeyframeQ
  tracks : List FeatureTrack
deriving DecidableEq

/-- `SlamEngine` fields (the tracker it drives plus its own state). -/
structure SlamEngine where
  tracker : FeatureTracker
  state : SlamStateQ
  lastDetectedFeatures : List Feature
  lastWidth : ℕ
  lastHeight : ℕ
  smoothedVelocity : V3Q
  lastInlierRatio : ℚ
  lastInlierCount : ℕ
  lastMatchCount : ℕ
deriving DecidableEq

/-- `SlamEngine._addKeyframe`: record the keyframe and append its pose to the
history (a second time, when the pose was already appended by the caller). -/
def SlamEngine.addKeyframe (e : SlamEngine) (pose : PoseQ) (features : List Feature) :
    SlamEngine :=
  { e with state :=
    { SlamEngine.state e with
      keyframes := SlamStateQ.keyframes (SlamEngine.state e) ++ [⟨pose, features⟩],
      poseHistory := SlamStateQ.poseHistory (SlamEngine.state e) ++ [pose] } }

/-- `SlamEngine._shouldCreateKeyframe`.  The translation test
`(pose.position - last.position).length > 0.15` is embedded as the equivalent
squared comparison `length2 > 0.0225`.  The rotation test
`2*acos(|dot|) > 3*(3.1415/180)` involves `acos`, which has no rational
embedding, so it is supplied as the abstract boolean `angTest`; no claim
settled in this file depends on it (it only decides whether the freshly
appended pose is additionally recorded as a keyframe). -/
def SlamEngine.shouldCreateKeyframe (angTest : QuatQ → QuatQ → Bool)
    (e : SlamEngine) (pose : PoseQ) : Bool :=
  match (SlamStateQ.keyframes (SlamEngine.state e)).getLast? with
  | none => true
  | some lastK =>
    let d := V3Q.sub (PoseQ.position pose) (PoseQ.position (KeyframeQ.pose lastK))
    decide (V3Q.length2 d > 0.0225) ||
      angTest (PoseQ.orientation pose) (PoseQ.orientation (KeyframeQ.pose lastK))

/-- Append to the pose history a copy of the last pose (or of the last
keyframe's pose if the history is empty) with an updated timestamp – the
"repeat the previous pose" fallback of `processFrame`. -/
def SlamEngine.repeatLastPose (e : SlamEngine) (lastKf : KeyframeQ) (timestamp : ℚ) :
    SlamEngine :=
  let lastPose := ((SlamStateQ.poseHistory (SlamEngine.state e)).getLast?).getD
    (KeyframeQ.pose lastKf)
  { e with state :=
    { SlamEngine.state e with
      poseHistory := SlamStateQ.poseHistory (SlamEngine.state e) ++
        [{ lastPose with timestamp := timestamp }] } }

/-- The tail of `SlamEngine.processFrame` from the point where the match list
against the last keyframe is available: match-count guard, per-match validity
filtering, the (mis)call into `estimatePosePnP`, the outlier clamp
(`speed > 0.5`, embedded as `length2 > 0.25`), EMA velocity smoothing, pose
append and keyframe creation. -/
def SlamEngine.processFrameTail (angTest : QuatQ → QuatQ → Bool) (e : SlamEngine)
    (lastKf : KeyframeQ) (features : List Feature) (matchList : List Match)
    (width height : ℕ) (timestamp : ℚ) (intrinsics : List ℚ) : SlamEngine :=
  if matchList = [] ∨ matchList.length < 4 then
    SlamEngine.repeatLastPose e lastKf timestamp
  else
    -- image/world point extraction with per-match validity filtering
    let pairs : List ((List ℚ) × (List ℚ)) := matchList.filterMap fun m =>
      if Match.prevIndex m ≥ (KeyframeQ.features lastKf).length ∨
          Match.currIndex m ≥ features.length then none
      else
        let prevPt := ((KeyframeQ.features lastKf).get? (Match.prevIndex m)).getD default
        let currPt := (features.get? (Match.currIndex m)).getD default
        let px := Feature.ptx prevPt
        let py := Feature.pty prevPt
        let cx := Feature.ptx currPt
        let cy := Feature.pty currPt
        if cx < 0 ∨ cx ≥ (width : ℚ) ∨ cy < 0 ∨ cy ≥ (height : ℚ) then none
        else if px < 0 ∨ px ≥ (width : ℚ) ∨ py < 0 ∨ py ≥ (height : ℚ) then none
        else some ([cx, cy], [px, py, 1])
    if pairs.length < 4 then
      SlamEngine.repeatLastPose e lastKf timestamp
    else
      let poseResp := FeatureTracker.estimatePosePnP (SlamEngine.tracker e)
        (pairs.map Prod.fst) (pairs.map Prod.snd) intrinsics
      let e1 := { e with
        lastInlierRatio := (PoseEstimate.inlierRatio poseResp).getD (SlamEngine.lastInlierRatio e),
        lastInlierCount := (PoseEstimate.inlierCount poseResp).getD (SlamEngine.lastInlierCount e),
        lastMatchCount := (PoseEstimate.matchCount poseResp).getD (SlamEngine.lastMatchCount e) }
      let rawVelocity := PoseEstimate.translation poseResp
      let outlier := decide (V3Q.length2 rawVelocity > 0.25)
      let velocity :=
        if outlier then SlamEngine.smoothedVelocity e1
        else V3Q.add (V3Q.scale (SlamEngine.smoothedVelocity e1) (1 - 0.3))
          (V3Q.scale rawVelocity 0.3)
      let e2 := if outlier then e1 else { e1 with smoothedVelocity := velocity }
      let lastPose := ((SlamStateQ.poseHistory (SlamEngine.state e2)).getLast?).getD
        (KeyframeQ.pose lastKf)
      let pose : PoseQ :=
        ⟨timestamp, V3Q.add (PoseQ.position lastPose) velocity, PoseQ.orientation lastPose⟩
      let e3 := { e2 with state :=
        { SlamEngine.state e2 with
          poseHistory := SlamStateQ.poseHistory (SlamEngine.state e2) ++ [pose] } }
      if SlamEngine.shouldCreateKeyframe angTest e3 pose then
        SlamEngine.addKeyframe e3 pose features
      else e3

/-- `SlamEngine.processFrame`: input validation, feature detection, first-frame
keyframe initialization, matching against the last keyframe, then
`processFrameTail`. -/
def SlamEngine.processFrame (angTest : QuatQ → QuatQ → Bool) (e : SlamEngine)
    (bytes : List ℤ) (width height : ℕ) (timestamp : ℚ) (intrinsics : List ℚ) :
    SlamEngine :=
  if bytes = [] ∨ width < 10 ∨ height < 10 then e
  else if intrinsics = [] then e
  else
    let e1 := { e with lastWidth := width, lastHeight := height }
    let td := FeatureTracker.detectFeatures (SlamEngine.tracker e1) bytes width height
    let e2 := { e1 with tracker := td.1, lastDetectedFeatures := td.2 }
    if td.2 = [] then e2
    else
      match (SlamStateQ.keyframes (SlamEngine.state e2)).getLast? with
      | none => SlamEngine.addKeyframe e2 ⟨timestamp, V3Q.zero, QuatQ.identity⟩ td.2
      | some lastKf =>
        let matchList := FeatureTracker.matchFeatures (SlamEngine.tracker e2)
          (KeyframeQ.features lastKf) td.2
        SlamEngine.processFrameTail angTest e2 lastKf td.2 matchList width height
          timestamp intrinsics

/-! ## Real-valued vectors and quaternions (`vector_math_64` subset used by
`alignment.dart` and `pose_types.dart`) -/

noncomputable section RealEmbedding

open Classical

structure RV3 where
  x : ℝ
  y : ℝ
  z : ℝ

def RV3.zero : RV3 := ⟨0, 0, 0⟩

def RV3.add (a b : RV3) : RV3 := ⟨a.x + b.x, a.y + b.y, a.z + b.z⟩

def RV3.sub (a b : RV3) : RV3 := ⟨a.x - b.x, a.y - b.y, a.z - b.z⟩

/-- Dart `v * c`. -/
def RV3.scale (a : RV3) (c : ℝ) : RV3 := ⟨a.x * c, a.y * c, a.z * c⟩

/-- Dart `v / c` (componentwise). -/
def RV3.divScalar (a : RV3) (c : ℝ) : RV3 := ⟨a.x / c, a.y / c, a.z / c⟩

def RV3.dot (a b : RV3) : ℝ := a.x * b.x + a.y * b.y + a.z * b.z

def RV3.length2 (a : RV3) : ℝ := a.x * a.x + a.y * a.y + a.z * a.z

def RV3.length (a : RV3) : ℝ := Real.sqrt (RV3.length2 a)

/-- `Vector3.normalize()`: leave the zero vector unchanged, otherwise scale by
the reciprocal length (the Dart method mutates in place; the embedding returns
the new value). -/
def RV3.normalize (a : RV3) : RV3 :=
  if RV3.length a = 0 then a else RV3.scale a (1 / RV3.length a)

/-- `vector_math` quaternion, storage order x,y,z,w; `Quaternion(x,y,z,w)`. -/
structure RQuat where
  x : ℝ
  y : ℝ
  z : ℝ
  w : ℝ

def RQuat.identity : RQuat := ⟨0, 0, 0, 1⟩

def RQuat.zero : RQuat := ⟨0, 0, 0, 0⟩

/-- Hamilton product (`Quaternion.operator*`). -/
def RQuat.mul (q r : RQuat) : RQuat :=
  ⟨q.w * r.x + q.x * r.w + q.y * r.z - q.z * r.y,
   q.w * r.y + q.y * r.w + q.z * r.x - q.x * r.z,
   q.w * r.z + q.z * r.w + q.x * r.y - q.y * r.x,
   q.w * r.w - q.x * r.x - q.y * r.y - q.z * r.z⟩

/-- `Quaternion.conjugated()`. -/
def RQuat.conjugated (q : RQuat) : RQuat := ⟨-q.x, -q.y, -q.z, q.w⟩

def RQuat.length2 (q : RQuat) : ℝ := q.x * q.x + q.y * q.y + q.z * q.z + q.w * q.w

def RQuat.length (q : RQuat) : ℝ := Real.sqrt (RQuat.length2 q)

def RQuat.scale (q : RQuat) (c : ℝ) : RQuat := ⟨q.x * c, q.y * c, q.z * c, q.w * c⟩

/-- `Quaternion.normalized()`: the zero quaternion stays zero, otherwise scale
by the reciprocal length. -/
def RQuat.normalized (q : RQuat) : RQuat :=
  if RQuat.length q = 0 then q else RQuat.scale q (1 / RQuat.length q)

/-- `Quaternion.axisAngle(axis, radians)` (`setAxisAngle` on a zero-initialized
quaternion, so a zero axis yields the zero quaternion; every caller in the
embedded code passes a unit axis). -/
def RQuat.axisAngle (axis : RV3) (radians : ℝ) : RQuat :=
  if RV3.length axis = 0 then RQuat.zero
  else
    let halfSin := Real.sin (radians * 0.5) / RV3.length axis
    ⟨axis.x * halfSin, axis.y * halfSin, axis.z * halfSin, Real.cos (radians * 0.5)⟩

/-- `rotateBodyToWorld` from `pose_types.dart`. -/
def rotateBodyToWorld (q : RQuat) (body : RV3) : RV3 :=
  let v : RQuat := ⟨body.x, body.y, body.z, 0⟩
  let r := RQuat.mul (RQuat.mul q v) (RQuat.conjugated q)
  ⟨r.x, r.y, r.z⟩

/-- 4-vector holding the Madgwick objective gradient (`Vector4`). -/
structure RV4 where
  x : ℝ
  y : ℝ
  z : ℝ
  w : ℝ

def RV4.length2 (v : RV4) : ℝ := v.x * v.x + v.y * v.y + v.z * v.z + v.w * v.w

def RV4.length (v : RV4) : ℝ := Real.sqrt (RV4.length2 v)

def RV4.scale (v : RV4) (c : ℝ) : RV4 := ⟨v.x * c, v.y * c, v.z * c, v.w * c⟩

/-! ## Madgwick filter and dead-reckoning engine (`alignment.dart`) -/

/-- `MadgwickFilter` state: gain `beta` and the internal quaternion `_q`. -/
structure MadgwickFilter where
  beta : ℝ
  q : RQuat

def MadgwickFilter.init : MadgwickFilter := ⟨0.04, RQuat.identity⟩

/-- `MadgwickFilter._integrateGyro`. -/
def MadgwickFilter.integrateGyro (f : MadgwickFilter) (gyro : RV3)
    (dt : ℝ) : MadgwickFilter :=
  let theta := RV3.scale gyro dt
  let mag := RV3.length theta
  if mag < 1e-6 then f
  else
    let axis := RV3.divScalar theta mag
    let dq := RQuat.axisAngle axis mag
    { f with q := RQuat.normalized (RQuat.mul (MadgwickFilter.q f) dq) }

/-- The explicit-Euler step of `MadgwickFilter.update` before the final
renormalization, given the already-normalized accelerometer vector `a`:
objective function, Jacobian-transpose gradient, gradient normalization, and
the blended quaternion derivative `0.5*q⊗ω - beta*grad̂` integrated over
`dt`.  The source constructs `Quaternion(q2+qDot2*dt, q3+qDot3*dt,
q4+qDot4*dt, q1+qDot1*dt)`. -/
def MadgwickFilter.eulerStep (f : MadgwickFilter) (gyro : RV3)
    (a : RV3) (dt : ℝ) : RQuat :=
  let q1 := RQuat.w (MadgwickFilter.q f)
  let q2 := RQuat.x (MadgwickFilter.q f)
  let q3 := RQuat.y (MadgwickFilter.q f)
  let q4 := RQuat.z (MadgwickFilter.q f)
  let f1 := 2 * (q2 * q4 - q1 * q3) - a.x
  let f2 := 2 * (q1 * q2 + q3 * q4) - a.y
  let f3 := 2 * (0.5 - q2 * q2 - q3 * q3) - a.z
  let J11 := -2 * q3
  let J12 := 2 * q4
  let J13 := -2 * q1
  let J14 := 2 * q2
  let J21 := 2 * q2
  let J22 := 2 * q1
  let J23 := 2 * q4
  let J24 := 2 * q3
  let J32 := -4 * q2
  let J33 := -4 * q3
  let grad1 := J11 * f1 + J21 * f2 + 0 * f3
  let grad2 := J12 * f1 + J22 * f2 + J32 * f3
  let grad3 := J13 * f1 + J23 * f2 + J33 * f3
  let grad4 := J14 * f1 + J24 * f2 + 0 * f3
  let grad0 : RV4 := ⟨grad1, grad2, grad3, grad4⟩
  let grad := if RV4.length2 grad0 > 0 then RV4.scale grad0 (1 / RV4.length grad0) else grad0
  let qDot1 := 0.5 * (-q2 * gyro.x - q3 * gyro.y - q4 * gyro.z) -
    MadgwickFilter.beta f * RV4.x grad
  let qDot2 := 0.5 * (q1 * gyro.x + q3 * gyro.z - q4 * gyro.y) -
    MadgwickFilter.beta f * RV4.y grad
  let qDot3 := 0.5 * (q1 * gyro.y - q2 * gyro.z + q4 * gyro.x) -
    MadgwickFilter.beta f * RV4.z grad
  let qDot4 := 0.5 * (q1 * gyro.z + q2 * gyro.y - q3 * gyro.x) -
    MadgwickFilter.beta f * RV4.w grad
  ⟨q2 + qDot2 * dt, q3 + qDot3 * dt, q4 + qDot4 * dt, q1 + qDot1 * dt⟩

/-- `MadgwickFilter.update`.  The Dart method normalizes the caller's `accel`
vector **in place** before using it; the embedding returns the post-call value
of that argument as the second component. -/
def MadgwickFilter.update (f : MadgwickFilter) (gyro accel : RV3)
    (dt : ℝ) : MadgwickFilter × RV3 :=
  if RV3.length2 accel > 1e-9 then
    let a := RV3.normalize accel
    ({ f with q := RQuat.normalized (MadgwickFilter.eulerStep f gyro a dt) }, a)
  else
    (MadgwickFilter.integrateGyro f gyro dt, accel)

/-- `ImuCalibration` (defaults: zero biases, gravity 9.80665). -/
structure ImuCalibration where
  accelBias : RV3
  gyroBias : RV3
  gravity : ℝ

def ImuCalibration.default : ImuCalibration := ⟨RV3.zero, RV3.zero, 9.80665⟩

/-- `Pose` over ℝ as carried by the dead-reckoning track. -/
structure PoseR where
  timestamp : ℝ
  position : RV3
  orientation : RQuat

def PoseR.zero : PoseR := ⟨0, RV3.zero, RQuat.identity⟩

/-- `DeadReckoningState {pose, velocity}`. -/
structure DeadReckoningState where
  pose : PoseR
  velocity : RV3

/-- `DeadReckoningEngine` fields. -/
structure DeadReckoningEngine where
  calibration : ImuCalibration
  filter : MadgwickFilter
  state : DeadReckoningState

/-- A freshly constructed (or reset) engine: identity orientation, zero pose
and velocity. -/
def DeadReckoningEngine.init (calibration : ImuCalibration) : DeadReckoningEngine :=
  ⟨calibration, MadgwickFilter.init, ⟨PoseR.zero, RV3.zero⟩⟩

/-- `DeadReckoningEngine.processSample`: bias correction, filter update,
body-to-world rotation of the (filter-mutated) corrected accel, gravity
subtraction, and strapdown integration.  Note that `_filter.update` has
normalized `correctedAccel` in place, so `worldAccel` is computed from the
**unit-length** vector, not from the m/s² vector. -/
def DeadReckoningEngine.processSample (e : DeadReckoningEngine)
    (timestamp : ℝ) (accel gyro : RV3) (dt : ℝ) : DeadReckoningEngine :=
  let correctedGyro := RV3.sub gyro (ImuCalibration.gyroBias (DeadReckoningEngine.calibration e))
  let correctedAccel := RV3.sub accel (ImuCalibration.accelBias (DeadReckoningEngine.calibration e))
  let fu := MadgwickFilter.update (DeadReckoningEngine.filter e) correctedGyro correctedAccel dt
  let orientation := MadgwickFilter.q fu.1
  let worldAccel := rotateBodyToWorld orientation fu.2
  let gravityVec : RV3 := ⟨0, 0, ImuCalibration.gravity (DeadReckoningEngine.calibration e)⟩
  let linearAccel := RV3.sub worldAccel gravityVec
  let velocity := RV3.add (DeadReckoningState.velocity (DeadReckoningEngine.state e))
    (RV3.scale linearAccel dt)
  let position := RV3.add (RV3.add
    (PoseR.position (DeadReckoningState.pose (DeadReckoningEngine.state e)))
    (RV3.scale velocity dt)) (RV3.scale linearAccel (0.5 * dt * dt))
  { e with filter := fu.1, state := ⟨⟨timestamp, position, orientation⟩, velocity⟩ }

/-! ## Trajectory metrics and Umeyama alignment (`alignment.dart`, first part) -/

/-- `TrajectoryMetrics {rmse, meanAbsError, maxError, driftRate}`. -/
structure TrajectoryMetrics where
  rmse : ℝ
  meanAbsError : ℝ
  maxError : ℝ
  driftRate : ℝ

/-- `computeMetrics(ref, est)`: positional errors over the first
`min(ref.length, est.length)` pose pairs (the loop bound `n`; `zipWith`
truncates identically), accumulated into RMSE, mean absolute error, max error
and `driftRate = maxErr / duration` guarded by `duration > 0`. -/
def computeMetrics (ref est : List PoseR) : TrajectoryMetrics :=
  if ref = [] ∨ est = [] then ⟨0, 0, 0, 0⟩
  else
    let n : ℕ := min ref.length est.length
    let errs := List.zipWith
      (fun r e => RV3.length (RV3.sub (PoseR.position e) (PoseR.position r))) ref est
    let errSum := (errs.map fun e => e * e).sum
    let absSum := errs.sum
    let maxErr := errs.foldl max 0
    let duration := |PoseR.timestamp ((ref.getLast?).getD PoseR.zero) -
      PoseR.timestamp ((ref.head?).getD PoseR.zero)|
    let driftRate := if duration > 0 then maxErr / duration else 0
    ⟨Real.sqrt (errSum / n), absSum / n, maxErr, driftRate⟩

/-- 3×3 matrix as three rows (`vector_math` `Matrix3`, row view). -/
structure M3 where
  r0 : RV3
  r1 : RV3
  r2 : RV3

def M3.zero : M3 := ⟨RV3.zero, RV3.zero, RV3.zero⟩

def M3.identity : M3 := ⟨⟨1, 0, 0⟩, ⟨0, 1, 0⟩, ⟨0, 0, 1⟩⟩

def M3.transposed (m : M3) : M3 :=
  ⟨⟨RV3.x (M3.r0 m), RV3.x (M3.r1 m), RV3.x (M3.r2 m)⟩,
   ⟨RV3.y (M3.r0 m), RV3.y (M3.r1 m), RV3.y (M3.r2 m)⟩,
   ⟨RV3.z (M3.r0 m), RV3.z (M3.r1 m), RV3.z (M3.r2 m)⟩⟩

/-- `Matrix3 * Vector3`. -/
def M3.mulV (m : M3) (v : RV3) : RV3 :=
  ⟨RV3.dot (M3.r0 m) v, RV3.dot (M3.r1 m) v, RV3.dot (M3.r2 m) v⟩

/-- `Matrix3 * Matrix3`. -/
def M3.mulM (a b : M3) : M3 :=
  let bt := M3.transposed b
  ⟨⟨RV3.dot (M3.r0 a) (M3.r0 bt), RV3.dot (M3.r0 a) (M3.r1 bt), RV3.dot (M3.r0 a) (M3.r2 bt)⟩,
   ⟨RV3.dot (M3.r1 a) (M3.r0 bt), RV3.dot (M3.r1 a) (M3.r1 bt), RV3.dot (M3.r1 a) (M3.r2 bt)⟩,
   ⟨RV3.dot (M3.r2 a) (M3.r0 bt), RV3.dot (M3.r2 a) (M3.r1 bt), RV3.dot (M3.r2 a) (M3.r2 bt)⟩⟩

/-- `Matrix3.scale` (entrywise). -/
def M3.scaleM (m : M3) (c : ℝ) : M3 :=
  ⟨RV3.scale (M3.r0 m) c, RV3.scale (M3.r1 m) c, RV3.scale (M3.r2 m) c⟩

def M3.sub (a b : M3) : M3 :=
  ⟨RV3.sub (M3.r0 a) (M3.r0 b), RV3.sub (M3.r1 a) (M3.r1 b), RV3.sub (M3.r2 a) (M3.r2 b)⟩

/-- `Matrix3.columns(c0, c1, c2)`. -/
def M3.columns (c0 c1 c2 : RV3) : M3 :=
  ⟨⟨c0.x, c1.x, c2.x⟩, ⟨c0.y, c1.y, c2.y⟩, ⟨c0.z, c1.z, c2.z⟩⟩

def M3.getColumn (m : M3) (i : ℕ) : RV3 :=
  match i with
  | 0 => ⟨RV3.x (M3.r0 m), RV3.x (M3.r1 m), RV3.x (M3.r2 m)⟩
  | 1 => ⟨RV3.y (M3.r0 m), RV3.y (M3.r1 m), RV3.y (M3.r2 m)⟩
  | _ => ⟨RV3.z (M3.r0 m), RV3.z (M3.r1 m), RV3.z (M3.r2 m)⟩

def M3.setColumn (m : M3) (i : ℕ) (v : RV3) : M3 :=
  match i with
  | 0 => ⟨⟨v.x, RV3.y (M3.r0 m), RV3.z (M3.r0 m)⟩,
          ⟨v.y, RV3.y (M3.r1 m), RV3.z (M3.r1 m)⟩,
          ⟨v.z, RV3.y (M3.r2 m), RV3.z (M3.r2 m)⟩⟩
  | 1 => ⟨⟨RV3.x (M3.r0 m), v.x, RV3.z (M3.r0 m)⟩,
          ⟨RV3.x (M3.r1 m), v.y, RV3.z (M3.r1 m)⟩,
          ⟨RV3.x (M3.r2 m), v.z, RV3.z (M3.r2 m)⟩⟩
  | _ => ⟨⟨RV3.x (M3.r0 m), RV3.y (M3.r0 m), v.x⟩,
          ⟨RV3.x (M3.r1 m), RV3.y (M3.r1 m), v.y⟩,
          ⟨RV3.x (M3.r2 m), RV3.y (M3.r2 m), v.z⟩⟩

def M3.determinant (m : M3) : ℝ :=
  RV3.x (M3.r0 m) * (RV3.y (M3.r1 m) * RV3.z (M3.r2 m) - RV3.z (M3.r1 m) * RV3.y (M3.r2 m)) -
  RV3.y (M3.r0 m) * (RV3.x (M3.r1 m) * RV3.z (M3.r2 m) - RV3.z (M3.r1 m) * RV3.x (M3.r2 m)) +
  RV3.z (M3.r0 m) * (RV3.x (M3.r1 m) * RV3.y (M3.r2 m) - RV3.y (M3.r1 m) * RV3.x (M3.r2 m))

def M3.trace (m : M3) : ℝ := RV3.x (M3.r0 m) + RV3.y (M3.r1 m) + RV3.z (M3.r2 m)

/-- `AlignmentResult {scale, rotation, translation, rmse}`. -/
structure AlignmentResult where
  scale : ℝ
  rotation : M3
  translation : RV3
  rmse : ℝ

/-- `_mean`. -/
def vmean (pts : List RV3) : RV3 :=
  RV3.divScalar (pts.foldl RV3.add RV3.zero) (pts.length : ℕ)

/-- `_rmse(src, dst, scale, r, t)`. -/
def alignRmse (src dst : List RV3) (scale : ℝ) (r : M3) (t : RV3) : ℝ :=
  let err := (List.zip src dst).foldl (fun acc p =>
    let est := RV3.add (M3.mulV (M3.transposed r) (RV3.scale p.1 scale)) t
    acc + RV3.length2 (RV3.sub est p.2)) 0
  Real.sqrt (err / src.length)

/-- The power-iteration inner loop of `_eigenSymmetric` (the `break` on a
near-zero norm leaves the unnormalized product and exits). -/
def powerIter (a : M3) : RV3 → ℕ → RV3
  | v, 0 => v
  | v, k + 1 =>
    let v' := M3.mulV a v
    let norm := RV3.length v'
    if norm < 1e-9 then v'
    else powerIter a (RV3.scale v' (1 / norm)) k

/-- `_EigenResult`. -/
structure EigenResult where
  values : List ℝ
  vectors : M3

/-- `_eigenSymmetric(m)`: three rounds of power iteration (50 steps each) with
deflation.  The seed vector of round `i` is
`Vector3(Random(i).nextDouble(), Random(i+1).nextDouble(), Random(i+2).nextDouble())`;
the platform PRNG values are supplied through the parameter `rnd`, with
`rnd i` standing for `math.Random(i).nextDouble()`. -/
def eigenSymmetric (rnd : ℕ → ℝ) (m : M3) : EigenResult :=
  let step := fun (st : M3 × List ℝ × M3) (i : ℕ) =>
    let a := st.1
    let v0 : RV3 := ⟨rnd i, rnd (i + 1), rnd (i + 2)⟩
    let v := powerIter a v0 50
    let lambda := RV3.dot v (M3.mulV a v)
    let outer := M3.columns (RV3.scale v v.x) (RV3.scale v v.y) (RV3.scale v v.z)
    (M3.sub a (M3.scaleM outer lambda), st.2.1 ++ [lambda], M3.setColumn st.2.2 i v)
  let r := [0, 1, 2].foldl step (m, ([], M3.identity))
  ⟨r.2.1, r.2.2⟩

/-- `_SvdResult`. -/
structure SvdResult where
  u : M3
  sigma : M3
  v : M3

/-- `_svd(a)`: eigen-decomposition of `AᵀA`, singular values
`sqrt(max(eig, 0))`, `Σ⁻¹` with the `1e-9` guard, and `U = A·V·Σ⁻¹`. -/
def svd3 (rnd : ℕ → ℝ) (a : M3) : SvdResult :=
  let ata := M3.mulM (M3.transposed a) a
  let eigen := eigenSymmetric rnd ata
  let sv := (EigenResult.values eigen).map fun e => Real.sqrt (max e 0)
  let s0 := (sv.get? 0).getD 0
  let s1 := (sv.get? 1).getD 0
  let s2 := (sv.get? 2).getD 0
  let v := EigenResult.vectors eigen
  let sigma : M3 := ⟨⟨s0, 0, 0⟩, ⟨0, s1, 0⟩, ⟨0, 0, s2⟩⟩
  let inv := fun s : ℝ => if s > 1e-9 then 1 / s else 0
  let sigmaInv : M3 := ⟨⟨inv s0, 0, 0⟩, ⟨0, inv s1, 0⟩, ⟨0, 0, inv s2⟩⟩
  let u := M3.mulM (M3.mulM a v) sigmaInv
  ⟨u, sigma, v⟩

/-- The body of `umeyama` past its precondition `assert`. -/
def umeyamaBody (rnd : ℕ → ℝ) (src dst : List RV3) : AlignmentResult :=
  let n := src.length
  let meanSrc := vmean src
  let meanDst := vmean dst
  let cov0 := (List.zip src dst).foldl (fun c p =>
    let xs := RV3.sub p.1 meanSrc
    let ys := RV3.sub p.2 meanDst
    ⟨RV3.add (M3.r0 c) (RV3.scale ys xs.x),
     RV3.add (M3.r1 c) (RV3.scale ys xs.y),
     RV3.add (M3.r2 c) (RV3.scale ys xs.z)⟩) M3.zero
  let cov := M3.scaleM cov0 (1 / n)
  let s := svd3 rnd cov
  let r0 := M3.mulM (SvdResult.v s) (M3.transposed (SvdResult.u s))
  let r :=
    if M3.determinant r0 < 0 then
      let v' := M3.setColumn (SvdResult.v s) 2 (RV3.scale (M3.getColumn (SvdResult.v s) 2) (-1))
      M3.mulM v' (M3.transposed (SvdResult.u s))
    else r0
  let varSrc := (src.foldl (fun acc p => acc + RV3.length2 (RV3.sub p meanSrc)) 0) / n
  let scale := M3.trace (SvdResult.sigma s) / varSrc
  let t := RV3.sub meanDst (M3.mulV (M3.transposed r) (RV3.scale meanSrc scale))
  let rmse := alignRmse src dst scale r t
  ⟨scale, r, t, rmse⟩

/-- `umeyama(src, dst)`: the `assert(src.length == dst.length && src.length >= 3)`
precondition is embedded as an `Except.error` (Dart debug-mode assert failure);
otherwise the alignment result is computed. -/
def umeyama (rnd : ℕ → ℝ) (src dst : List RV3) : Except String AlignmentResult :=
  if src.length = dst.length ∧ 3 ≤ src.length then
    Except.ok (umeyamaBody rnd src dst)
  else Except.error "Need >=3 points"

end RealEmbedding

/-! ## The valid-match point extraction and the two inlier-counting rules of
the pose-delta estimator, as standalone definitions (used to state the
claims about `estimatePose`) -/

/-- The normalized-coordinate point pairs of the matches that survive the
index-validity filter of `estimatePose` (the same `filterMap` as in its
body). -/
def validPoints (matchList : List Match) (prevFeatures currFeatures : List Feature)
    (intrinsics : List ℚ) : List ((ℚ × ℚ) × (ℚ × ℚ)) :=
  let fx := (intrinsics.get? 0).getD 800
  let fy := (intrinsics.get? 1).getD 800
  let cx := (intrinsics.get? 2).getD 320
  let cy := (intrinsics.get? 3).getD 240
  matchList.filterMap fun m =>
    if m.prevIndex ≥ prevFeatures.length ∨ m.currIndex ≥ currFeatures.length then none
    else
      let prevPt := (prevFeatures.get? m.prevIndex).getD default
      let currPt := (currFeatures.get? m.currIndex).getD default
      some (((Feature.ptx prevPt - cx) / fx, (Feature.pty prevPt - cy) / fy),
            ((Feature.ptx currPt - cx) / fx, (Feature.pty currPt - cy) / fy))

/-- Modelled from the spec: the per-match flow vectors
(`curr - prev` in normalized coordinates), one per valid match. -/
def specFlows (matchList : List Match) (prevFeatures currFeatures : List Feature)
    (intrinsics : List ℚ) : List (ℚ × ℚ) :=
  (validPoints matchList prevFeatures currFeatures intrinsics).map fun p =>
    (p.2.1 - p.1.1, p.2.2 - p.1.2)

/-- The inlier count the code actually computes: walk the **independently
sorted** x-flow and y-flow lists in step and count the positions whose two
(unrelated) entries both have residuals below the per-axis thresholds. -/
def sortedPairInlierCount (flows : List (ℚ × ℚ)) : ℕ :=
  let sortedX := (flows.map Prod.fst).insertionSort (· ≤ ·)
  let sortedY := (flows.map Prod.snd).insertionSort (· ≤ ·)
  let medianFlowX := (sortedX.get? (sortedX.length / 2)).getD 0
  let medianFlowY := (sortedY.get? (sortedY.length / 2)).getD 0
  let madX := |(sortedX.foldl (fun acc v => acc + |v - medianFlowX|) 0) / sortedX.length|
  let madY := |(sortedY.foldl (fun acc v => acc + |v - medianFlowY|) 0) / sortedY.length|
  let thresholdX := clampQ (madX * 3) 0.001 0.05
  let thresholdY := clampQ (madY * 3) 0.001 0.05
  (sortedX.zip sortedY).countP fun p =>
    decide (|p.1 - medianFlowX| < thresholdX ∧ |p.2 - medianFlowY| < thresholdY)

/-! ## Concrete inputs used by the closed theorems and witnesses -/

/-- Eight matched features, all previous points at the origin. -/
def prevC4 : List Feature := List.replicate 8 ⟨0, 0, 0, 0⟩

/-- Current points: six at the origin, one x-outlier, one y-outlier (in two
different matches). -/
def currC4 : List Feature :=
  List.replicate 6 (⟨0, 0, 0, 0⟩ : Feature) ++ [⟨10, 0, 0, 0⟩, ⟨0, 10, 0, 0⟩]

def matchesC4 : List Match := (List.range 8).map fun i => ⟨i, i, 0⟩

/-- Identity-like intrinsics `[fx, fy, cx, cy] = [1, 1, 0, 0]`, so normalized
coordinates coincide with pixel coordinates. -/
def intrC4 : List ℚ := [1, 1, 0, 0]

/-- The trivially-false angle test used to instantiate the abstract keyframe
rotation check in closed evaluations. -/
def angFalse : QuatQ → QuatQ → Bool := fun _ _ => false

def kfFeatsC3 : List Feature := [⟨20, 20, 0, 0⟩, ⟨30, 30, 0, 0⟩, ⟨40, 40, 0, 0⟩, ⟨50, 50, 0, 0⟩]

def pose0C3 : PoseQ := ⟨0, ⟨1, 2, 3⟩, QuatQ.identity⟩

/-- A tracking-state engine: one keyframe, one pose in the history, and a
nonzero smoothed velocity. -/
def engineC3 : SlamEngine :=
  { tracker := FeatureTracker.init,
    state := ⟨[pose0C3], [⟨pose0C3, kfFeatsC3⟩], []⟩,
    lastDetectedFeatures := [],
    lastWidth := 100,
    lastHeight := 100,
    smoothedVelocity := ⟨10, 20, 30⟩,
    lastInlierRatio := 0,
    lastInlierCount := 0,
    lastMatchCount := 0 }

/-- Four valid matches against the keyframe features. -/
def matchesC3 : List Match := [⟨0, 0, 0⟩, ⟨1, 1, 0⟩, ⟨2, 2, 0⟩, ⟨3, 3, 0⟩]

/-- The pose the engine appends on that frame: previous position plus
`0.7 * smoothedVelocity`, orientation carried over. -/
def poseNewC3 : PoseQ := ⟨5, ⟨8, 16, 24⟩, QuatQ.identity⟩

/-- All-zero 31×31 image for the matcher witness. -/
def zimgC6 : List ℤ := List.replicate 961 0

def prevC6 : List Feature := [⟨15, 15, 0, 0⟩]

def currC6 : List Feature := [⟨15, 15, 0, 0⟩]

noncomputable section RealExamples

/-- Reference trajectory `(0,0,0) @ t=0`, `(1,0,0) @ t=1`. -/
def refC9 : List PoseR :=
  [⟨0, ⟨0, 0, 0⟩, RQuat.identity⟩, ⟨1, ⟨1, 0, 0⟩, RQuat.identity⟩]

/-- Estimated trajectory `(0.5,0,0)`, `(1.5,0,0)`. -/
def estC9 : List PoseR :=
  [⟨0, ⟨0.5, 0, 0⟩, RQuat.identity⟩, ⟨1, ⟨1.5, 0, 0⟩, RQuat.identity⟩]

end RealExamples

/-! ## Theorems -/

/-- C5 counterexample: the claim says the `< 8`-matches fallback returns
`inlierRatio = 0` (and zero counts), but the returned map carries no
`inlierRatio` / `inlierCount` / `matchCount` entries at all (a Dart caller
reads `null`), refuted here at the concrete empty call. -/
theorem estimatePose_fallback_counterexample :
    DartFeatureDetector.estimatePose [] [] [] [] =
      ⟨V3Q.zero, V3Q.zero, none, none, none⟩ ∧
    ¬ (PoseEstimate.inlierRatio (DartFeatureDetector.estimatePose [] [] [] []) = some 0) ∧
    ¬ (PoseEstimate.inlierCount (DartFeatureDetector.estimatePose [] [] [] []) = some 0) := by
  decide

/-- C5 (amended): `estimatePose` with fewer than 8 matches returns zero
rotation and translation and **omits** the quality fields (`inlierRatio`,
`inlierCount`, `matchCount` are absent rather than zero). -/
theorem estimatePose_fallback_fields_absent (matchList : List Match)
    (prevFeatures currFeatures : List Feature) (intrinsics : List ℚ)
    (h : matchList.length < 8) :
    DartFeatureDetector.estimatePose matchList prevFeatures currFeatures intrinsics =
      ⟨V3Q.zero, V3Q.zero, none, none, none⟩ := by
  rw [DartFeatureDetector.estimatePose, if_pos h]

/-- Witness for the amended C5 theorem at the concrete empty call. -/
theorem estimatePose_fallback_fields_absent_witness :
    (List.length ([] : List Match) < 8) ∧
    DartFeatureDetector.estimatePose [] [⟨1, 2, 3, 4⟩] [] [5] =
      ⟨V3Q.zero, V3Q.zero, none, none, none⟩ :=
  ⟨by decide, estimatePose_fallback_fields_absent [] [⟨1, 2, 3, 4⟩] [] [5] (by decide)⟩

/-- C4 counterexample: with eight valid matches whose x-outlier and y-outlier
sit in two *different* matches, the code's inlier count (which pairs the
independently sorted x-flows and y-flows positionally) is 7, while the
per-match rule of the claim counts 6 inliers; the returned ratio is `7/8`,
not `6/8`. -/
theorem estimatePose_inlierRatio_counterexample :
    PoseEstimate.inlierRatio (DartFeatureDetector.estimatePose matchesC4 prevC4 currC4 intrC4)
      ≠ some ((specInlierCount (specFlows matchesC4 prevC4 currC4 intrC4) : ℚ)
          / (specFlows matchesC4 prevC4 currC4 intrC4).length) ∧
    PoseEstimate.inlierRatio (DartFeatureDetector.estimatePose matchesC4 prevC4 currC4 intrC4)
      = some (7 / 8) ∧
    specInlierCount (specFlows matchesC4 prevC4 currC4 intrC4) = 6 ∧
    (specFlows matchesC4 prevC4 currC4 intrC4).length = 8 := by
  with_unfolding_all decide

/-- C4 (amended): with at least 8 matches surviving validity filtering, the
returned `inlierRatio` equals the number of *positions* at which the
independently sorted x-flow and y-flow lists both have residuals (to the
respective median flows) below the per-axis thresholds
`clamp(3*MAD, 0.001, 0.05)`, divided by the number of valid matches. -/
theorem estimatePose_inlierRatio_sorted_pairs (matchList : List Match)
    (prevFeatures currFeatures : List Feature) (intrinsics : List ℚ)
    (h8 : ¬ matchList.length < 8)
    (hpts : ¬ (validPoints matchList prevFeatures currFeatures intrinsics).length < 8) :
    PoseEstimate.inlierRatio
        (DartFeatureDetector.estimatePose matchList prevFeatures currFeatures intrinsics)
      = some ((sortedPairInlierCount (specFlows matchList prevFeatures currFeatures intrinsics) : ℚ)
          / (validPoints matchList prevFeatures currFeatures intrinsics).length) := by
  have hlen : ¬ (validPoints matchList prevFeatures currFeatures intrinsics).length = 0 := by
    omega
  simp only [DartFeatureDetector.estimatePose, sortedPairInlierCount, specFlows]
  rw [if_neg h8]
  simp only [validPoints] at hpts hlen ⊢
  rw [if_neg hpts]
  simp only [List.map_map, Function.comp_def, List.length_insertionSort, List.length_map]
  rw [if_pos hlen]

/-- Witness for the amended C4 theorem at the concrete eight-match input. -/
theorem estimatePose_inlierRatio_sorted_pairs_witness :
    (¬ matchesC4.length < 8) ∧
    (¬ (validPoints matchesC4 prevC4 currC4 intrC4).length < 8) ∧
    PoseEstimate.inlierRatio (DartFeatureDetector.estimatePose matchesC4 prevC4 currC4 intrC4)
      = some ((sortedPairInlierCount (specFlows matchesC4 prevC4 currC4 intrC4) : ℚ)
          / (validPoints matchesC4 prevC4 currC4 intrC4).length) :=
  ⟨by decide, by with_unfolding_all decide,
    estimatePose_inlierRatio_sorted_pairs matchesC4 prevC4 currC4 intrC4
      (by decide) (by with_unfolding_all decide)⟩

/-- C7: the guard of `detectCorners` only checks `imageBytes.isEmpty`, not
`imageBytes.length < width*height`.  On a 25-byte buffer with 10×10 claimed
dimensions the gradient loop's center-index guard passes at `(y,x) = (1,5)`
but the `below` neighbor read hits index 25 and raises a `RangeError`
(embedded: `none`), so the "returns an empty list, never raises" claim fails;
the guarded degenerate shapes do return `[]`. -/
theorem detectCorners_short_buffer_raises :
    DartFeatureDetector.detectCorners (List.replicate 25 0) 10 10 = none ∧
    (List.replicate 25 (0 : ℤ)).length < 10 * 10 ∧
    DartFeatureDetector.detectCorners [] 10 10 = some [] ∧
    DartFeatureDetector.detectCorners (List.replicate 100 0) 9 12 = some [] ∧
    DartFeatureDetector.detectCorners (List.replicate 100 0) 12 9 = some [] := by
  with_unfolding_all decide

/-- C3: the visual-odometry controller never feeds the matched pairs to the
pose-delta estimator.  `FeatureTracker.estimatePosePnP` ignores its
`imagePoints`/`worldPoints` arguments and calls
`DartFeatureDetector.estimatePose` with an **empty** match list, so the raw
translation is always `(0,0,0)`; on a tracking frame with four valid matches
the appended pose is `previous position + 0.7 * smoothedVelocity` (the EMA of
a zero sample), with orientation carried over — independent of the matched
pairs. -/
theorem slam_processFrame_ignores_matches_bug :
    (∀ (t : FeatureTracker) (imagePoints worldPoints : List (List ℚ)) (intrinsics : List ℚ),
      PoseEstimate.translation (FeatureTracker.estimatePosePnP t imagePoints worldPoints intrinsics)
        = V3Q.zero) ∧
    SlamStateQ.poseHistory (SlamEngine.state
        (SlamEngine.processFrameTail angFalse engineC3 ⟨pose0C3, kfFeatsC3⟩ kfFeatsC3 matchesC3
          100 100 5 [800, 800, 320, 240]))
      = [pose0C3, poseNewC3, poseNewC3] ∧
    PoseQ.position poseNewC3
      = V3Q.add (PoseQ.position pose0C3) (V3Q.scale (SlamEngine.smoothedVelocity engineC3) (1 - 0.3)) ∧
    matchesC3.length = 4 := by
  refine ⟨fun t ips wps intr => ?_, ?_, ?_, ?_⟩
  · rw [FeatureTracker.estimatePosePnP, DartFeatureDetector.estimatePose,
      if_pos (by decide : ([] : List Match).length < 8)]
  · with_unfolding_all decide
  · with_unfolding_all decide
  · decide

theorem foldl_append_eq_filterMap (f : ℕ → Option Match) (l : List ℕ) (acc : List Match) :
    l.foldl (fun acc2 i => match f i with | some m => acc2 ++ [m] | none => acc2) acc
      = acc ++ l.filterMap f := by
  induction l generalizing acc with
  | nil => simp
  | cons a t ih =>
    cases h : f a with
    | none => simp [List.foldl_cons, h, ih, List.filterMap_cons]
    | some m => simp [List.foldl_cons, h, ih, List.filterMap_cons]

theorem considerFeature_prevIndex (prev current : List Feature)
    (prevImage currImage : List ℤ) (width height : ℕ) (i : ℕ) (m : Match)
    (h : DartFeatureDetector.considerFeature prev current prevImage currImage width height i
      = some m) : Match.prevIndex m = i := by
  simp only [DartFeatureDetector.considerFeature] at h
  split at h
  · exact Option.noConfusion h
  · split at h
    · exact Option.noConfusion h
    · split at h
      · split at h
        · split at h
          · cases h; rfl
          · exact Option.noConfusion h
        · exact Option.noConfusion h
      · exact Option.noConfusion h

theorem scanCandidates_bestJ_isSome (prevPatch : List ℤ) (current : List Feature)
    (currImage : List ℤ) (width height : ℕ) (px py : ℤ)
    (h : Option.isSome (BestTwo.bestScore
      (DartFeatureDetector.scanCandidates prevPatch current currImage width height px py)) = true) :
    Option.isSome (BestTwo.bestJ
      (DartFeatureDetector.scanCandidates prevPatch current currImage width height px py)) = true := by
  revert h
  unfold DartFeatureDetector.scanCandidates
  refine List.foldlRecOn (motive := fun st => Option.isSome (BestTwo.bestScore st) = true →
      Option.isSome (BestTwo.bestJ st) = true) _ _ _ ?_ ?_
  · simp
  · intro b hb j hj
    dsimp only []
    split
    · exact hb
    · split
      · exact hb
      · split
        · exact hb
        · split
          · intro _; rfl
          · split
            · exact hb
            · exact hb

/-- C6: for every prev feature the matcher considers (index below
`min(prev.length, 50)`, patch bounds satisfied, nonempty patch), a match is
emitted if and only if the best mean-subtracted SSD score over the in-radius
candidates satisfies `best < 10000` and `best / (secondBest + 0.001) < 0.8`;
in particular every candidate whose best/second-best ratio is at least `0.8`
is rejected. -/
theorem matchFeatures_ratio_test (prev current : List Feature)
    (prevImage currImage : List ℤ) (width height : ℕ) (i : ℕ)
    (hcur : current ≠ []) (hpi : prevImage ≠ []) (hci : currImage ≠ [])
    (hi : i < min prev.length 50)
    (hbounds : ¬ (dartToInt (Feature.ptx ((prev.get? i).getD default)) < 15 ∨
      dartToInt (Feature.ptx ((prev.get? i).getD default)) ≥ (width : ℤ) - 15 ∨
      dartToInt (Feature.pty ((prev.get? i).getD default)) < 15 ∨
      dartToInt (Feature.pty ((prev.get? i).getD default)) ≥ (height : ℤ) - 15))
    (hpatch : ¬ DartFeatureDetector.extractPatch prevImage width
      (dartToInt (Feature.ptx ((prev.get? i).getD default)))
      (dartToInt (Feature.pty ((prev.get? i).getD default))) 15 = []) :
    (∃ m, m ∈ DartFeatureDetector.matchFeatures prev current prevImage currImage width height ∧
        Match.prevIndex m = i) ↔
      (oLt (BestTwo.bestScore (DartFeatureDetector.scanCandidates
          (DartFeatureDetector.extractPatch prevImage width
            (dartToInt (Feature.ptx ((prev.get? i).getD default)))
            (dartToInt (Feature.pty ((prev.get? i).getD default))) 15)
          current currImage width height
          (dartToInt (Feature.ptx ((prev.get? i).getD default)))
          (dartToInt (Feature.pty ((prev.get? i).getD default)))))
        (some 10000) = true ∧
       ratioOf (BestTwo.bestScore (DartFeatureDetector.scanCandidates
          (DartFeatureDetector.extractPatch prevImage width
            (dartToInt (Feature.ptx ((prev.get? i).getD default)))
            (dartToInt (Feature.pty ((prev.get? i).getD default))) 15)
          current currImage width height
          (dartToInt (Feature.ptx ((prev.get? i).getD default)))
          (dartToInt (Feature.pty ((prev.get? i).getD default)))))
        (BestTwo.secondBestScore (DartFeatureDetector.scanCandidates
          (DartFeatureDetector.extractPatch prevImage width
            (dartToInt (Feature.ptx ((prev.get? i).getD default)))
            (dartToInt (Feature.pty ((prev.get? i).getD default))) 15)
          current currImage width height
          (dartToInt (Feature.ptx ((prev.get? i).getD default)))
          (dartToInt (Feature.pty ((prev.get? i).getD default))))) < 0.8) := by
  have hprev : prev ≠ [] := by
    have h0 : i < prev.length := Nat.lt_of_lt_of_le hi (Nat.min_le_left _ _)
    exact List.ne_nil_of_length_pos (Nat.lt_of_le_of_lt (Nat.zero_le i) h0)
  have hmf : DartFeatureDetector.matchFeatures prev current prevImage currImage width height
      = (List.range (min prev.length 50)).filterMap
          (DartFeatureDetector.considerFeature prev current prevImage currImage width height) := by
    rw [DartFeatureDetector.matchFeatures, if_neg]
    · simpa using foldl_append_eq_filterMap
        (DartFeatureDetector.considerFeature prev current prevImage currImage width height)
        (List.range (min prev.length 50)) []
    · simp [hprev, hcur, hpi, hci]
  rw [hmf]
  constructor
  · rintro ⟨m, hm, hmi⟩
    obtain ⟨j, hjr, hfj⟩ := List.mem_filterMap.mp hm
    have hji : j = i := by
      rw [← hmi, considerFeature_prevIndex prev current prevImage currImage width height j m hfj]
    subst hji
    simp only [DartFeatureDetector.considerFeature, if_neg hbounds, if_neg hpatch] at hfj
    split at hfj
    next j' b hJ hS =>
      rw [hJ, hS] at *
      split at hfj
      next hlt =>
        split at hfj
        next hr =>
          rw [hS]
          exact ⟨by simpa [oLt] using hlt, by simpa using hr⟩
        next => exact Option.noConfusion hfj
      next => exact Option.noConfusion hfj
    next => exact Option.noConfusion hfj
  · rintro ⟨h1, h2⟩
    cases hbs : BestTwo.bestScore (DartFeatureDetector.scanCandidates
        (DartFeatureDetector.extractPatch prevImage width
          (dartToInt (Feature.ptx ((prev.get? i).getD default)))
          (dartToInt (Feature.pty ((prev.get? i).getD default))) 15)
        current currImage width height
        (dartToInt (Feature.ptx ((prev.get? i).getD default)))
        (dartToInt (Feature.pty ((prev.get? i).getD default)))) with
    | none => rw [hbs] at h1; exact absurd h1 (by simp [oLt])
    | some b =>
      have hjs := scanCandidates_bestJ_isSome
        (DartFeatureDetector.extractPatch prevImage width
          (dartToInt (Feature.ptx ((prev.get? i).getD default)))
          (dartToInt (Feature.pty ((prev.get? i).getD default))) 15)
        current currImage width height
        (dartToInt (Feature.ptx ((prev.get? i).getD default)))
        (dartToInt (Feature.pty ((prev.get? i).getD default)))
        (by rw [hbs]; rfl)
      obtain ⟨j, hbj⟩ := Option.isSome_iff_exists.mp hjs
      have hblt : b < 10000 := by
        rw [hbs] at h1
        simpa [oLt] using h1
      have hcons : DartFeatureDetector.considerFeature prev current prevImage currImage
          width height i = some ⟨i, j, b⟩ := by
        simp only [DartFeatureDetector.considerFeature, if_neg hbounds, if_neg hpatch]
        rw [hbj, hbs]
        dsimp only
        rw [if_pos hblt, if_pos (by rw [hbs] at h2; simpa using h2)]
      exact ⟨⟨i, j, b⟩, List.mem_filterMap.mpr ⟨i, List.mem_range.mpr hi, hcons⟩, rfl⟩

set_option maxRecDepth 100000 in
theorem matchFeatures_ratio_test_witness :
    (currC6 ≠ []) ∧ (zimgC6 ≠ []) ∧ (0 < min prevC6.length 50) ∧
    (¬ (dartToInt (Feature.ptx ((prevC6.get? 0).getD default)) < 15 ∨
      dartToInt (Feature.ptx ((prevC6.get? 0).getD default)) ≥ (31 : ℤ) - 15 ∨
      dartToInt (Feature.pty ((prevC6.get? 0).getD default)) < 15 ∨
      dartToInt (Feature.pty ((prevC6.get? 0).getD default)) ≥ (31 : ℤ) - 15)) ∧
    (¬ DartFeatureDetector.extractPatch zimgC6 31
      (dartToInt (Feature.ptx ((prevC6.get? 0).getD default)))
      (dartToInt (Feature.pty ((prevC6.get? 0).getD default))) 15 = []) ∧
    ((∃ m, m ∈ DartFeatureDetector.matchFeatures prevC6 currC6 zimgC6 zimgC6 31 31 ∧
        Match.prevIndex m = 0) ↔
      (oLt (BestTwo.bestScore (DartFeatureDetector.scanCandidates
          (DartFeatureDetector.extractPatch zimgC6 31
            (dartToInt (Feature.ptx ((prevC6.get? 0).getD default)))
            (dartToInt (Feature.pty ((prevC6.get? 0).getD default))) 15)
          currC6 zimgC6 31 31
          (dartToInt (Feature.ptx ((prevC6.get? 0).getD default)))
          (dartToInt (Feature.pty ((prevC6.get? 0).getD default)))))
        (some 10000) = true ∧
       ratioOf (BestTwo.bestScore (DartFeatureDetector.scanCandidates
          (DartFeatureDetector.extractPatch zimgC6 31
            (dartToInt (Feature.ptx ((prevC6.get? 0).getD default)))
            (dartToInt (Feature.pty ((prevC6.get? 0).getD default))) 15)
          currC6 zimgC6 31 31
          (dartToInt (Feature.ptx ((prevC6.get? 0).getD default)))
          (dartToInt (Feature.pty ((prevC6.get? 0).getD default)))))
        (BestTwo.secondBestScore (DartFeatureDetector.scanCandidates
          (DartFeatureDetector.extractPatch zimgC6 31
            (dartToInt (Feature.ptx ((prevC6.get? 0).getD default)))
            (dartToInt (Feature.pty ((prevC6.get? 0).getD default))) 15)
          currC6 zimgC6 31 31
          (dartToInt (Feature.ptx ((prevC6.get? 0).getD default)))
          (dartToInt (Feature.pty ((prevC6.get? 0).getD default))))) < 0.8)) :=
  ⟨by decide, by decide, by decide,
   by with_unfolding_all decide, by with_unfolding_all decide,
   matchFeatures_ratio_test prevC6 currC6 zimgC6 zimgC6 31 31 0
     (by decide) (by decide) (by decide) (by decide)
     (by with_unfolding_all decide) (by with_unfolding_all decide)⟩

theorem rv3_length2_nonneg (v : RV3) : 0 ≤ RV3.length2 v := by
  unfold RV3.length2
  have hx := mul_self_nonneg (RV3.x v)
  have hy := mul_self_nonneg (RV3.y v)
  have hz := mul_self_nonneg (RV3.z v)
  linarith

theorem rquat_length2_nonneg (q : RQuat) : 0 ≤ RQuat.length2 q := by
  unfold RQuat.length2
  have hx := mul_self_nonneg (RQuat.x q)
  have hy := mul_self_nonneg (RQuat.y q)
  have hz := mul_self_nonneg (RQuat.z q)
  have hw := mul_self_nonneg (RQuat.w q)
  linarith

theorem rv3_length2_scale (v : RV3) (c : ℝ) :
    RV3.length2 (RV3.scale v c) = RV3.length2 v * c ^ 2 := by
  unfold RV3.length2 RV3.scale; ring

theorem rquat_length2_scale (q : RQuat) (c : ℝ) :
    RQuat.length2 (RQuat.scale q c) = RQuat.length2 q * c ^ 2 := by
  unfold RQuat.length2 RQuat.scale; ring

theorem RV3.length_normalize (v : RV3) (h : RV3.length2 v ≠ 0) :
    RV3.length (RV3.normalize v) = 1 := by
  have h0 : 0 ≤ RV3.length2 v := rv3_length2_nonneg v
  have hpos : 0 < RV3.length2 v := lt_of_le_of_ne h0 (Ne.symm h)
  have hl : 0 < RV3.length v := Real.sqrt_pos.mpr hpos
  rw [RV3.normalize, if_neg (ne_of_gt hl), RV3.length, rv3_length2_scale,
    Real.sqrt_mul h0, Real.sqrt_sq (by positivity : (0:ℝ) ≤ 1 / RV3.length v)]
  rw [show Real.sqrt (RV3.length2 v) = RV3.length v from rfl]
  field_simp

theorem RQuat.length_normalized (q : RQuat) (h : RQuat.length2 q ≠ 0) :
    RQuat.length (RQuat.normalized q) = 1 := by
  have h0 : 0 ≤ RQuat.length2 q := rquat_length2_nonneg q
  have hpos : 0 < RQuat.length2 q := lt_of_le_of_ne h0 (Ne.symm h)
  have hl : 0 < RQuat.length q := Real.sqrt_pos.mpr hpos
  rw [RQuat.normalized, if_neg (ne_of_gt hl), RQuat.length, rquat_length2_scale,
    Real.sqrt_mul h0, Real.sqrt_sq (by positivity : (0:ℝ) ≤ 1 / RQuat.length q)]
  rw [show Real.sqrt (RQuat.length2 q) = RQuat.length q from rfl]
  field_simp

theorem RQuat.length2_of_length_eq_one (q : RQuat) (h : RQuat.length q = 1) :
    RQuat.length2 q = 1 := by
  have h0 : 0 ≤ RQuat.length2 q := rquat_length2_nonneg q
  have := Real.sq_sqrt h0
  rw [show Real.sqrt (RQuat.length2 q) = RQuat.length q from rfl, h] at this
  linarith [this]

theorem RQuat.length2_mul (p q : RQuat) :
    RQuat.length2 (RQuat.mul p q) = RQuat.length2 p * RQuat.length2 q := by
  unfold RQuat.length2 RQuat.mul; ring

/-- C10: `MadgwickFilter.update` rescales the caller's `accel` vector in place
to unit length whenever its squared norm exceeds `1e-9`, and leaves it
untouched otherwise (the gyro-only fallback path). -/
theorem madgwick_update_accel_frame_effect (f : MadgwickFilter) (gyro accel : RV3) (dt : ℝ) :
    (RV3.length2 accel > 1e-9 →
      Prod.snd (MadgwickFilter.update f gyro accel dt) = RV3.normalize accel ∧
      RV3.length (Prod.snd (MadgwickFilter.update f gyro accel dt)) = 1) ∧
    (¬ RV3.length2 accel > 1e-9 →
      Prod.snd (MadgwickFilter.update f gyro accel dt) = accel) := by
  constructor
  · intro h
    rw [MadgwickFilter.update, if_pos h]
    refine ⟨rfl, ?_⟩
    exact RV3.length_normalize accel (ne_of_gt (lt_trans (by norm_num) h))
  · intro h
    rw [MadgwickFilter.update, if_neg h]

/-- Witness for C10 at `accel = (0,0,2)`. -/
theorem madgwick_update_accel_frame_effect_witness :
    RV3.length2 ⟨0, 0, 2⟩ > 1e-9 ∧
    Prod.snd (MadgwickFilter.update MadgwickFilter.init ⟨0, 0, 0⟩ ⟨0, 0, 2⟩ 1)
      = RV3.normalize ⟨0, 0, 2⟩ ∧
    RV3.length (Prod.snd (MadgwickFilter.update MadgwickFilter.init ⟨0, 0, 0⟩ ⟨0, 0, 2⟩ 1)) = 1 := by
  have h : RV3.length2 (⟨0, 0, 2⟩ : RV3) > 1e-9 := by norm_num [RV3.length2]
  exact ⟨h, (madgwick_update_accel_frame_effect MadgwickFilter.init ⟨0, 0, 0⟩ ⟨0, 0, 2⟩ 1).1 h⟩

/-- C8: `umeyama` fails its precondition (embedded as `Except.error`) whenever
the two point sequences have different lengths or fewer than 3 points. -/
theorem umeyama_precondition_error (rnd : ℕ → ℝ) (src dst : List RV3)
    (h : src.length ≠ dst.length ∨ src.length < 3) :
    umeyama rnd src dst = Except.error "Need >=3 points" := by
  rw [umeyama, if_neg]
  rintro ⟨h1, h2⟩
  rcases h with h | h
  · exact h h1
  · omega

/-- Witness for C8 at the empty/singleton input. -/
theorem umeyama_precondition_error_witness :
    (List.length ([] : List RV3) ≠ List.length [RV3.zero] ∨ List.length ([] : List RV3) < 3) ∧
    umeyama (fun _ => 0) [] [RV3.zero] = Except.error "Need >=3 points" :=
  ⟨Or.inl (by simp), umeyama_precondition_error (fun _ => 0) [] [RV3.zero] (Or.inl (by simp))⟩

theorem RV3.length2_eq_of_length_eq_one (v : RV3) (h : RV3.length v = 1) :
    RV3.length2 v = 1 := by
  have h0 : 0 ≤ RV3.length2 v := rv3_length2_nonneg v
  have hsq := Real.sq_sqrt h0
  rw [show Real.sqrt (RV3.length2 v) = RV3.length v from rfl, h] at hsq
  linarith [hsq]

theorem RQuat.length2_axisAngle_of_unit (axis : RV3) (r : ℝ) (h : RV3.length axis = 1) :
    RQuat.length2 (RQuat.axisAngle axis r) = 1 := by
  have h2 : RV3.length2 axis = 1 := RV3.length2_eq_of_length_eq_one axis h
  rw [RQuat.axisAngle, if_neg (by rw [h]; norm_num), h]
  have hsc := Real.sin_sq_add_cos_sq (r * 0.5)
  unfold RQuat.length2 RV3.length2 at *
  dsimp only
  nlinarith [hsc, h2]

/-- C2 (amended): `MadgwickFilter.update` leaves the orientation quaternion at
norm exactly 1 for every gyro, accel and `dt`, **except** when the explicit
Euler step `q + q̇·dt` of the accelerometer path lands exactly on the zero
quaternion, in which case `Quaternion.normalized()` leaves it zero.  The
hypothesis `hnd` excludes that degenerate combination. -/
theorem madgwick_update_unit_norm (f : MadgwickFilter) (gyro accel : RV3) (dt : ℝ)
    (hq : RQuat.length (MadgwickFilter.q f) = 1)
    (hnd : RV3.length2 accel > 1e-9 →
      RQuat.length2 (MadgwickFilter.eulerStep f gyro (RV3.normalize accel) dt) ≠ 0) :
    RQuat.length (MadgwickFilter.q (Prod.fst (MadgwickFilter.update f gyro accel dt))) = 1 := by
  rw [MadgwickFilter.update]
  split
  next hacc =>
    dsimp only
    exact RQuat.length_normalized _ (hnd hacc)
  next hacc =>
    dsimp only
    rw [MadgwickFilter.integrateGyro]
    split
    next => exact hq
    next hmag =>
      dsimp only
      apply RQuat.length_normalized
      rw [RQuat.length2_mul]
      have hq2 : RQuat.length2 (MadgwickFilter.q f) = 1 :=
        RQuat.length2_of_length_eq_one _ hq
      have hmagpos : 0 < RV3.length (RV3.scale gyro dt) := by
        have : (1e-6 : ℝ) ≤ RV3.length (RV3.scale gyro dt) := not_lt.mp hmag
        linarith
      have haxis : RV3.length (RV3.divScalar (RV3.scale gyro dt)
          (RV3.length (RV3.scale gyro dt))) = 1 := by
        have hL2 : RV3.length2 (RV3.divScalar (RV3.scale gyro dt)
            (RV3.length (RV3.scale gyro dt)))
            = RV3.length2 (RV3.scale gyro dt) /
              (RV3.length (RV3.scale gyro dt) * RV3.length (RV3.scale gyro dt)) := by
          unfold RV3.length2 RV3.divScalar
          ring
        have hsq : RV3.length (RV3.scale gyro dt) * RV3.length (RV3.scale gyro dt)
            = RV3.length2 (RV3.scale gyro dt) :=
          Real.mul_self_sqrt (rv3_length2_nonneg _)
        have hne : RV3.length2 (RV3.scale gyro dt) ≠ 0 := by
          nlinarith [hmagpos, hsq]
        rw [RV3.length, hL2, hsq, div_self hne]
        exact Real.sqrt_one
      have hdq : RQuat.length2 (RQuat.axisAngle (RV3.divScalar (RV3.scale gyro dt)
          (RV3.length (RV3.scale gyro dt))) (RV3.length (RV3.scale gyro dt))) = 1 :=
        RQuat.length2_axisAngle_of_unit _ _ haxis
      rw [hq2, hdq]
      norm_num

/-- Witness for the amended C2 theorem: zero accel (gyro-only path), zero gyro. -/
theorem madgwick_update_unit_norm_witness :
    RQuat.length (MadgwickFilter.q MadgwickFilter.init) = 1 ∧
    (RV3.length2 ⟨0, 0, 0⟩ > 1e-9 →
      RQuat.length2 (MadgwickFilter.eulerStep MadgwickFilter.init ⟨0, 0, 0⟩
        (RV3.normalize ⟨0, 0, 0⟩) 1) ≠ 0) ∧
    RQuat.length (MadgwickFilter.q
      (Prod.fst (MadgwickFilter.update MadgwickFilter.init ⟨0, 0, 0⟩ ⟨0, 0, 0⟩ 1))) = 1 := by
  have h1 : RQuat.length (MadgwickFilter.q MadgwickFilter.init) = 1 := by
    rw [MadgwickFilter.init]
    rw [show MadgwickFilter.q ⟨0.04, RQuat.identity⟩ = RQuat.identity from rfl]
    rw [RQuat.length, RQuat.identity]
    norm_num [RQuat.length2]
  have h2 : RV3.length2 (⟨0, 0, 0⟩ : RV3) > 1e-9 →
      RQuat.length2 (MadgwickFilter.eulerStep MadgwickFilter.init ⟨0, 0, 0⟩
        (RV3.normalize ⟨0, 0, 0⟩) 1) ≠ 0 := by
    intro h
    norm_num [RV3.length2] at h
  exact ⟨h1, h2, madgwick_update_unit_norm MadgwickFilter.init ⟨0, 0, 0⟩ ⟨0, 0, 0⟩ 1 h1 h2⟩

/-- C2 counterexample: from the unit quaternion `(x,y,z,w) = (1,0,0,0)` (a
180° roll), with the default gain `beta = 0.04`, zero gyro, accel `(0,0,1)`
and `dt = 25`, the explicit Euler step lands exactly on the zero quaternion;
`normalized()` leaves the zero quaternion unchanged, so the post-update norm
is 0, not within `1e-6` of 1. -/
theorem madgwick_update_norm_counterexample :
    RQuat.length ⟨1, 0, 0, 0⟩ = 1 ∧
    MadgwickFilter.q (Prod.fst
        (MadgwickFilter.update ⟨0.04, ⟨1, 0, 0, 0⟩⟩ ⟨0, 0, 0⟩ ⟨0, 0, 1⟩ 25))
      = RQuat.zero ∧
    ¬ (|RQuat.length (MadgwickFilter.q (Prod.fst
        (MadgwickFilter.update ⟨0.04, ⟨1, 0, 0, 0⟩⟩ ⟨0, 0, 0⟩ ⟨0, 0, 1⟩ 25))) - 1| ≤ 1e-6) := by
  have hlen1 : RQuat.length ⟨1, 0, 0, 0⟩ = 1 := by
    rw [RQuat.length]
    norm_num [RQuat.length2]
  have hacc : RV3.length2 (⟨0, 0, 1⟩ : RV3) > 1e-9 := by norm_num [RV3.length2]
  have hl : RV3.length (⟨0, 0, 1⟩ : RV3) = 1 := by
    rw [RV3.length]
    norm_num [RV3.length2]
  have hnorm : RV3.normalize ⟨0, 0, 1⟩ = ⟨0, 0, 1⟩ := by
    rw [RV3.normalize, if_neg (by rw [hl]; norm_num), hl]
    norm_num [RV3.scale]
  have h64 : Real.sqrt 64 = 8 := by
    rw [show (64 : ℝ) = 8 ^ 2 by norm_num]
    exact Real.sqrt_sq (by norm_num)
  have heuler : MadgwickFilter.eulerStep ⟨0.04, ⟨1, 0, 0, 0⟩⟩ ⟨0, 0, 0⟩ ⟨0, 0, 1⟩ 25
      = RQuat.zero := by
    rw [MadgwickFilter.eulerStep]
    norm_num [RV4.length2, RV4.length, RV4.scale, RQuat.zero, h64]
  have hzero : RQuat.normalized RQuat.zero = RQuat.zero := by
    rw [RQuat.normalized, if_pos]
    rw [RQuat.length, RQuat.zero]
    norm_num [RQuat.length2, Real.sqrt_zero]
  have hupd : MadgwickFilter.q (Prod.fst
      (MadgwickFilter.update ⟨0.04, ⟨1, 0, 0, 0⟩⟩ ⟨0, 0, 0⟩ ⟨0, 0, 1⟩ 25)) = RQuat.zero := by
    rw [MadgwickFilter.update, if_pos hacc]
    dsimp only
    rw [hnorm, heuler, hzero]
  refine ⟨hlen1, hupd, ?_⟩
  rw [hupd]
  rw [show RQuat.length RQuat.zero = 0 by rw [RQuat.length, RQuat.zero]; norm_num [RQuat.length2, Real.sqrt_zero]]
  norm_num

/-- C1: the repository's own stationary test input (one sample with
`accel = (0,0,9.80665)`, zero gyro, `dt = 0.01`, default calibration) does not
stay at the origin: because `update` normalized `correctedAccel` in place, the
world acceleration is the unit vector `(0,0,1)`, gravity subtraction leaves
`(0,0,-8.80665)`, and the integrated position is `(0,0,-0.0013209975)`, whose
norm is far above the `1e-6` bound. -/
theorem processSample_stationary_displacement_bug :
    PoseR.position (DeadReckoningState.pose (DeadReckoningEngine.state
      (DeadReckoningEngine.processSample (DeadReckoningEngine.init ImuCalibration.default)
        0.01 ⟨0, 0, 9.80665⟩ ⟨0, 0, 0⟩ 0.01)))
      = ⟨0, 0, -0.0013209975⟩ ∧
    RV3.length ⟨0, 0, -0.0013209975⟩ = 0.0013209975 ∧
    ¬ (RV3.length ⟨0, 0, -0.0013209975⟩ < 1e-6) := by
  have hfacc : RV3.length2 (⟨0, 0, 9.80665⟩ : RV3) > 1e-9 := by norm_num [RV3.length2]
  have hl : RV3.length ⟨0, 0, 9.80665⟩ = 9.80665 := by
    rw [RV3.length, show RV3.length2 ⟨0, 0, 9.80665⟩ = 9.80665 ^ 2 by norm_num [RV3.length2]]
    exact Real.sqrt_sq (by norm_num)
  have hnorm : RV3.normalize ⟨0, 0, 9.80665⟩ = ⟨0, 0, 1⟩ := by
    rw [RV3.normalize, if_neg (by rw [hl]; norm_num), hl]
    norm_num [RV3.scale]
  have heuler : MadgwickFilter.eulerStep ⟨0.04, RQuat.identity⟩ ⟨0, 0, 0⟩ ⟨0, 0, 1⟩ 0.01
      = RQuat.identity := by
    rw [MadgwickFilter.eulerStep]
    norm_num [RV4.length2, RV4.scale, RQuat.identity]
  have hlenid : RQuat.length RQuat.identity = 1 := by
    rw [RQuat.length, RQuat.identity]
    norm_num [RQuat.length2]
  have hnormid : RQuat.normalized RQuat.identity = RQuat.identity := by
    rw [RQuat.normalized, if_neg (by rw [hlenid]; norm_num), hlenid]
    norm_num [RQuat.scale, RQuat.identity]
  have hupd : MadgwickFilter.update ⟨0.04, RQuat.identity⟩ ⟨0, 0, 0⟩ ⟨0, 0, 9.80665⟩ 0.01
      = (⟨0.04, RQuat.identity⟩, ⟨0, 0, 1⟩) := by
    rw [MadgwickFilter.update, if_pos hfacc]
    dsimp only
    rw [hnorm, heuler, hnormid]
  have hrot : rotateBodyToWorld RQuat.identity ⟨0, 0, 1⟩ = ⟨0, 0, 1⟩ := by
    rw [rotateBodyToWorld]
    norm_num [RQuat.mul, RQuat.conjugated, RQuat.identity]
  have hlen2 : RV3.length ⟨0, 0, -0.0013209975⟩ = 0.0013209975 := by
    rw [RV3.length, show RV3.length2 ⟨0, 0, -0.0013209975⟩ = 0.0013209975 ^ 2 by
      norm_num [RV3.length2]]
    exact Real.sqrt_sq (by norm_num)
  refine ⟨?_, hlen2, by rw [hlen2]; norm_num⟩
  simp only [DeadReckoningEngine.processSample, DeadReckoningEngine.init,
    ImuCalibration.default, MadgwickFilter.init]
  rw [show RV3.sub ⟨0, 0, 0⟩ RV3.zero = ⟨0, 0, 0⟩ by norm_num [RV3.sub, RV3.zero]]
  rw [show RV3.sub ⟨0, 0, 9.80665⟩ RV3.zero = ⟨0, 0, 9.80665⟩ by norm_num [RV3.sub, RV3.zero]]
  rw [hupd]
  dsimp only
  rw [hrot]
  rw [PoseR.zero]
  norm_num [RV3.sub, RV3.add, RV3.scale, RV3.zero]

theorem zipWith_err_mul_self (ref est : List PoseR) :
    (List.zipWith (fun r e => RV3.length (RV3.sub (PoseR.position e) (PoseR.position r)))
        ref est).map (fun e => e * e)
      = List.zipWith (fun r e => RV3.length2 (RV3.sub (PoseR.position e) (PoseR.position r)))
          ref est := by
  induction ref generalizing est with
  | nil => simp
  | cons a t ih =>
    cases est with
    | nil => simp
    | cons b u =>
      simp only [List.zipWith_cons_cons, List.map_cons, ih]
      rw [show RV3.length (RV3.sub (PoseR.position b) (PoseR.position a)) *
          RV3.length (RV3.sub (PoseR.position b) (PoseR.position a))
          = RV3.length2 (RV3.sub (PoseR.position b) (PoseR.position a)) from
        Real.mul_self_sqrt (rv3_length2_nonneg _)]

/-- C9: `computeMetrics` truncates both pose sequences to the first
`min(|ref|, |est|)` poses, reports `rmse` as the root of the mean squared
positional error over those pairs, and reports
`driftRate = maxError / elapsed reference time` whenever that elapsed time is
positive; on the spec's concrete two-pose example the rmse is `0.5`. -/
theorem computeMetrics_rmse_drift :
    (∀ ref est : List PoseR, ref ≠ [] → est ≠ [] →
      (TrajectoryMetrics.rmse (computeMetrics ref est)
        = Real.sqrt ((List.zipWith
            (fun r e => RV3.length2 (RV3.sub (PoseR.position e) (PoseR.position r)))
            (ref.take (min ref.length est.length))
            (est.take (min ref.length est.length))).sum / (min ref.length est.length)) ∧
      (0 < |PoseR.timestamp ((ref.getLast?).getD PoseR.zero) -
            PoseR.timestamp ((ref.head?).getD PoseR.zero)| →
        TrajectoryMetrics.driftRate (computeMetrics ref est)
          = TrajectoryMetrics.maxError (computeMetrics ref est) /
            |PoseR.timestamp ((ref.getLast?).getD PoseR.zero) -
             PoseR.timestamp ((ref.head?).getD PoseR.zero)|))) ∧
    TrajectoryMetrics.rmse (computeMetrics refC9 estC9) = 0.5 := by
  have hgen : ∀ ref est : List PoseR, ref ≠ [] → est ≠ [] →
      (TrajectoryMetrics.rmse (computeMetrics ref est)
        = Real.sqrt ((List.zipWith
            (fun r e => RV3.length2 (RV3.sub (PoseR.position e) (PoseR.position r)))
            (ref.take (min ref.length est.length))
            (est.take (min ref.length est.length))).sum / (min ref.length est.length)) ∧
      (0 < |PoseR.timestamp ((ref.getLast?).getD PoseR.zero) -
            PoseR.timestamp ((ref.head?).getD PoseR.zero)| →
        TrajectoryMetrics.driftRate (computeMetrics ref est)
          = TrajectoryMetrics.maxError (computeMetrics ref est) /
            |PoseR.timestamp ((ref.getLast?).getD PoseR.zero) -
             PoseR.timestamp ((ref.head?).getD PoseR.zero)|)) := by
    intro ref est h1 h2
    rw [computeMetrics, if_neg (by simp [h1, h2])]
    constructor
    · dsimp only
      rw [zipWith_err_mul_self, List.zipWith_eq_zipWith_take_min]
    · intro hd
      dsimp only
      rw [if_pos hd]
  refine ⟨hgen, ?_⟩
  have h := (hgen refC9 estC9 (by simp [refC9]) (by simp [estC9])).1
  rw [h]
  rw [show (min refC9.length estC9.length) = 2 by simp [refC9, estC9]]
  simp only [refC9, estC9]
  norm_num [RV3.sub, RV3.length2]
  rw [show Real.sqrt 4 = 2 by
    rw [show (4 : ℝ) = 2 ^ 2 by norm_num]; exact Real.sqrt_sq (by norm_num)]
  norm_num

/-- Witness for C9 at the spec's concrete two-pose trajectories. -/
theorem computeMetrics_rmse_drift_witness :
    (refC9 ≠ []) ∧ (estC9 ≠ []) ∧
    (0 < |PoseR.timestamp ((refC9.getLast?).getD PoseR.zero) -
          PoseR.timestamp ((refC9.head?).getD PoseR.zero)|) ∧
    TrajectoryMetrics.driftRate (computeMetrics refC9 estC9)
      = TrajectoryMetrics.maxError (computeMetrics refC9 estC9) /
        |PoseR.timestamp ((refC9.getLast?).getD PoseR.zero) -
         PoseR.timestamp ((refC9.head?).getD PoseR.zero)| := by
  have h1 : refC9 ≠ [] := by simp [refC9]
  have h2 : estC9 ≠ [] := by simp [estC9]
  have hd : 0 < |PoseR.timestamp ((refC9.getLast?).getD PoseR.zero) -
      PoseR.timestamp ((refC9.head?).getD PoseR.zero)| := by
    norm_num [refC9, List.getLast?]
  exact ⟨h1, h2, hd, (computeMetrics_rmse_drift.1 refC9 estC9 h1 h2).2 hd⟩
